import Mathlib

/-!
Shallow embedding of the BEC "Sand Dune Searcher" integrated Arduino sketch
(the SENSORS + MOTOR CONTROLLER + FSM sketch in WIRING_GUIDE.md).

Modelling conventions:
* C `int` values (PWM speeds, percentages) are `Int`; Arduino integer
  division is `Int.tdiv` (truncation toward zero, as in C).
* Distances (`double` in the sketch) are `ℚ`; only order comparisons are
  performed on them, which the rationals capture exactly.
* `millis()` timestamps (`unsigned long`) are `Nat`; the sketch only ever
  subtracts a past change time from the current time, which truncated
  `Nat` subtraction matches for non-decreasing clocks.
* Digital levels `HIGH`/`LOW` are `true`/`false`.
* The C `State` enum is modelled by its underlying integer (`Nat`), with
  `STATE_IDLE = 0` through `STATE_DONE = 7`, so that the `switch`
  statements' `default` arms are observable on values outside the
  enumeration, exactly as in the compiled C.
* The sketch's module-level mutable globals are collected in one record
  `Sys`; each C function becomes a function `... → Sys → Sys`.
-/

/-- The `Direction` enum of the sketch. -/
inductive Direction where
  | STOP
  | FORWARD
  | BACKWARD
  | LEFT_TURN
  | RIGHT_TURN
  deriving DecidableEq

/-- The sketch's module-level mutable state: motor speed globals, H-bridge
output pin levels, PWM outputs, FSM state, run flag and debounce state. -/
structure Sys where
  currentLeftSpeed : Int
  currentRightSpeed : Int
  targetLeftSpeed : Int
  targetRightSpeed : Int
  currentDirection : Direction
  leftPin1 : Bool
  leftPin2 : Bool
  rightPin1 : Bool
  rightPin2 : Bool
  leftPWM : Int
  rightPWM : Int
  state : Nat
  running : Bool
  lastRawButton : Bool
  stableButtonState : Bool
  lastChangeTime : Nat
  deriving DecidableEq

/-- Constant `MAX_SPEED` (full-scale PWM). -/
def MAX_SPEED : Int := 255

/-- Constant `RAMP_RATE` (speed change per ramp step). -/
def RAMP_RATE : Int := 5

/-- Global `DRIVE_MAX_PCT` (set to 100, never mutated). -/
def DRIVE_MAX_PCT : Int := 100

/-- Global `TURN_SLOW_PCT` (set to 50, never mutated). -/
def TURN_SLOW_PCT : Int := 50

/-- Constant `debounceMs` of the GO-switch debouncer. -/
def debounceMs : Nat := 50

/-- Underlying integer of `STATE_IDLE`. -/
abbrev STATE_IDLE : Nat := 0

/-- Underlying integer of `STATE_PHASE1`. -/
abbrev STATE_PHASE1 : Nat := 1

/-- Underlying integer of `STATE_PHASE2`. -/
abbrev STATE_PHASE2 : Nat := 2

/-- Underlying integer of `STATE_PHASE3`. -/
abbrev STATE_PHASE3 : Nat := 3

/-- Underlying integer of `STATE_PHASE4`. -/
abbrev STATE_PHASE4 : Nat := 4

/-- Underlying integer of `STATE_PHASE5`. -/
abbrev STATE_PHASE5 : Nat := 5

/-- Underlying integer of `STATE_PHASE6`. -/
abbrev STATE_PHASE6 : Nat := 6

/-- Underlying integer of `STATE_DONE`. -/
abbrev STATE_DONE : Nat := 7

/-- Arduino `constrain(amt, low, high)` macro. -/
def constrain (amt low high : Int) : Int :=
  if amt < low then low else if amt > high then high else amt

/-- Arduino `map(x, in_min, in_max, out_min, out_max)`, C integer division. -/
def cMap (x inMin inMax outMin outMax : Int) : Int :=
  ((x - inMin) * (outMax - outMin)).tdiv (inMax - inMin) + outMin

/-- Function `setMotorDirection(leftEnabled, leftForward, rightEnabled, rightForward)`:
drives the four H-bridge direction pins. -/
def setMotorDirection (leftEnabled leftForward rightEnabled rightForward : Bool)
    (s : Sys) : Sys :=
  { s with
    leftPin1 := leftEnabled && leftForward
    leftPin2 := leftEnabled && !leftForward
    rightPin1 := rightEnabled && rightForward
    rightPin2 := rightEnabled && !rightForward }

/-- Function `stopMotors()`: brake both sides (all direction pins LOW), zero PWM,
zero all four speed globals, direction `STOP`. -/
def stopMotors (s : Sys) : Sys :=
  { s with
    leftPin1 := false
    leftPin2 := false
    rightPin1 := false
    rightPin2 := false
    leftPWM := 0
    rightPWM := 0
    currentLeftSpeed := 0
    currentRightSpeed := 0
    targetLeftSpeed := 0
    targetRightSpeed := 0
    currentDirection := Direction.STOP }

/-- One side of `rampSpeed()`: move `current` toward `target` by at most
`RAMP_RATE`, clamped at the target (the `min`/`max` calls in the sketch). -/
def ramp1 (current target : Int) : Int :=
  if current < target then min (current + RAMP_RATE) target
  else if current > target then max (current - RAMP_RATE) target
  else current

/-- Function `rampSpeed()`: advance both sides' current speeds one bounded step
toward their targets, then apply them via PWM. -/
def rampSpeed (s : Sys) : Sys :=
  let l := ramp1 s.currentLeftSpeed s.targetLeftSpeed
  let r := ramp1 s.currentRightSpeed s.targetRightSpeed
  { s with currentLeftSpeed := l, currentRightSpeed := r, leftPWM := l, rightPWM := r }

/-- Function `setMotorTargetsPct(leftPct, rightPct)`: clamp both percentages to
[0,100], convert to PWM targets via `map`, and either hard-stop (both zero)
or enable both sides forward. -/
def setMotorTargetsPct (leftPct rightPct : Int) (s : Sys) : Sys :=
  let lp := constrain leftPct 0 100
  let rp := constrain rightPct 0 100
  let s1 := { s with
    targetLeftSpeed := cMap lp 0 100 0 MAX_SPEED
    targetRightSpeed := cMap rp 0 100 0 MAX_SPEED }
  if lp = 0 ∧ rp = 0 then
    stopMotors s1
  else
    { setMotorDirection true true true true s1 with currentDirection := Direction.FORWARD }

/-- Predicate `inRange(value, minVal, maxVal)`: inclusive on both ends. -/
def inRange (value minVal maxVal : ℚ) : Bool :=
  decide (value ≥ minVal) && decide (value ≤ maxVal)

/-- Function `driveStraight()`: both sides at `DRIVE_MAX_PCT`. -/
def driveStraight (s : Sys) : Sys :=
  setMotorTargetsPct DRIVE_MAX_PCT DRIVE_MAX_PCT s

/-- Function `driveLeftArc()`: inner (left) side slowed, outer (right) at full speed. -/
def driveLeftArc (s : Sys) : Sys :=
  setMotorTargetsPct ((DRIVE_MAX_PCT * TURN_SLOW_PCT).tdiv 100) DRIVE_MAX_PCT s

/-- Function `driveRightArc()`: inner (right) side slowed, outer (left) at full speed. -/
def driveRightArc (s : Sys) : Sys :=
  setMotorTargetsPct DRIVE_MAX_PCT ((DRIVE_MAX_PCT * TURN_SLOW_PCT).tdiv 100) s

/-- Function `updateGoSwitch()` with the raw digital level and `millis()` value as
inputs: record raw changes, and after the debounce window commit the stable
level; on a committed LOW (press) toggle `running` and set the FSM state. -/
def updateGoSwitch (raw : Bool) (now : Nat) (s : Sys) : Sys :=
  let s1 := if raw ≠ s.lastRawButton then
      { s with lastChangeTime := now, lastRawButton := raw }
    else s
  if now - s1.lastChangeTime > debounceMs ∧ raw ≠ s1.stableButtonState then
    let s2 := { s1 with stableButtonState := raw }
    if raw = false then
      let r := !s2.running
      if r then { s2 with running := r, state := STATE_PHASE1 }
      else stopMotors { s2 with running := r, state := STATE_IDLE }
    else s2
  else s1

/-- Struct `Calibration`: the seven distance thresholds (as in the sketch,
nine `double` fields). -/
structure Calibration where
  L_detect_min : ℚ
  L_detect_max : ℚ
  R_inner_close : ℚ
  R_outer_far_min : ℚ
  R_outer_far_max : ℚ
  R_outer_turn_min : ℚ
  R_outer_turn_max : ℚ
  F_final_detect : ℚ
  F_stop_dist : ℚ
  deriving DecidableEq

/-- The calibration defaults assigned in `setup()`. -/
def defaultCal : Calibration :=
  { L_detect_min := 13
    L_detect_max := 15
    R_inner_close := 12
    R_outer_far_min := 20
    R_outer_far_max := 30
    R_outer_turn_min := 12
    R_outer_turn_max := 14
    F_final_detect := 20
    F_stop_dist := 7 }

/-- Body of `loop_full()` after its initial `updateGoSwitch()` call, taking
the latest sensor readings `L`, `R`, `F` as inputs: the run-flag override
followed by the full-course `switch` on `state`. -/
def loop_full (cal : Calibration) (L R F : ℚ) (s : Sys) : Sys :=
  if s.running = false then
    { stopMotors s with state := STATE_IDLE }
  else
    match s.state with
    | 0 => stopMotors s
    | 1 =>
        let s1 := driveStraight s
        if inRange L cal.L_detect_min cal.L_detect_max then { s1 with state := STATE_PHASE2 } else s1
    | 2 =>
        let s1 := driveLeftArc s
        if decide (R ≤ cal.R_inner_close) then { s1 with state := STATE_PHASE3 } else s1
    | 3 =>
        let s1 := driveStraight s
        if inRange R cal.R_outer_far_min cal.R_outer_far_max then { s1 with state := STATE_PHASE4 } else s1
    | 4 =>
        let s1 := driveStraight s
        if inRange R cal.R_outer_turn_min cal.R_outer_turn_max then { s1 with state := STATE_PHASE5 } else s1
    | 5 =>
        let s1 := driveRightArc s
        if decide (F ≤ cal.F_final_detect) then { s1 with state := STATE_PHASE6 } else s1
    | 6 =>
        let s1 := driveStraight s
        if decide (F ≤ cal.F_stop_dist) then { stopMotors s1 with state := STATE_DONE } else s1
    | 7 => stopMotors s
    | _ => { stopMotors s with state := STATE_IDLE }

/-- Body of `loop_testLeftOnly()` after its initial `updateGoSwitch()` call,
taking the latest sensor readings `L`, `R` as inputs: the run-flag override
followed by the left-only test `switch` on `state`. -/
def loop_testLeftOnly (cal : Calibration) (L R : ℚ) (s : Sys) : Sys :=
  if s.running = false then
    { stopMotors s with state := STATE_IDLE }
  else
    match s.state with
    | 0 => stopMotors s
    | 1 =>
        let s1 := driveStraight s
        if inRange L cal.L_detect_min cal.L_detect_max then { s1 with state := STATE_PHASE2 } else s1
    | 2 =>
        let s1 := driveLeftArc s
        let s2 := if decide (L > cal.L_detect_max) then { s1 with state := STATE_PHASE1 } else s1
        if decide (R ≤ cal.R_inner_close) then { s2 with state := STATE_PHASE1 } else s2
    | _ => { s with state := STATE_PHASE1 }

/-- Preprocessor constant `MODE` of the integrated sketch (defined to 2,
selecting the left-only test). -/
def MODE : Nat := 2

/-- External inputs consumed during one pass of `loop()`: the raw GO-switch
level, the `millis()` clock, whether the ramp interval has elapsed, and the
latest three distance readings. -/
structure LoopInp where
  raw : Bool
  now : Nat
  doRamp : Bool
  L : ℚ
  R : ℚ
  F : ℚ

/-- One pass of `loop()` as compiled: sensor readings arrive as inputs, the
ramp advances when its interval has elapsed, then the `#if MODE == 1`
dispatch runs the selected FSM (each FSM begins with `updateGoSwitch()`). -/
def loopTick (cal : Calibration) (i : LoopInp) (s : Sys) : Sys :=
  let s1 := if i.doRamp then rampSpeed s else s
  let s2 := updateGoSwitch i.raw i.now s1
  if MODE = 1 then loop_full cal i.L i.R i.F s2
  else loop_testLeftOnly cal i.L i.R s2

/-- Run `loop()` over a whole input trace. -/
def runLoop (cal : Calibration) (l : List LoopInp) (s : Sys) : Sys :=
  l.foldl (fun s i => loopTick cal i s) s

/-- Fold of `updateGoSwitch` over a sample trace (for the debouncer alone). -/
def processSwitch (l : List (Bool × Nat)) (s : Sys) : Sys :=
  l.foldl (fun s p => updateGoSwitch p.1 p.2 s) s

/-- The global state right after `setup()`: everything zeroed/disabled by
`stopMotors()`, state `STATE_IDLE`, not running, button lines at the
pull-up HIGH level, clock fields zero. -/
def setupState : Sys :=
  stopMotors
    { currentLeftSpeed := 0
      currentRightSpeed := 0
      targetLeftSpeed := 0
      targetRightSpeed := 0
      currentDirection := Direction.STOP
      leftPin1 := false
      leftPin2 := false
      rightPin1 := false
      rightPin2 := false
      leftPWM := 0
      rightPWM := 0
      state := STATE_IDLE
      running := false
      lastRawButton := true
      stableButtonState := true
      lastChangeTime := 0 }

/-- A sample trace is "chatter" relative to the current debouncer state when
every sample either changes the raw level (restarting the settle window) or
arrives within the debounce window of the last change; times never run
backwards. This is the claim's "every change separated by less than the
debounce window", expressed sample by sample. -/
def chatterOk (s : Sys) : List (Bool × Nat) → Prop
  | [] => True
  | (b, t) :: rest =>
      s.lastChangeTime ≤ t ∧
      (b = s.lastRawButton → t ≤ s.lastChangeTime + debounceMs) ∧
      chatterOk (updateGoSwitch b t s) rest

instance chatterOkDecidable (s : Sys) (l : List (Bool × Nat)) : Decidable (chatterOk s l) := by
  induction l generalizing s with
  | nil => exact isTrue trivial
  | cons p rest ih =>
      simp only [chatterOk]
      exact instDecidableAnd

/-- Scenario start state: just toggled to running in `STATE_PHASE1`. -/
def c9_s1 : Sys := { setupState with state := STATE_PHASE1, running := true }

/-- Scenario state after the tick reading `L=20, R=999, F=999`. -/
def c9_t1 : Sys := loop_full defaultCal 20 999 999 c9_s1

/-- Scenario state after the further tick reading `L=14, R=999, F=999`. -/
def c9_t2 : Sys := loop_full defaultCal 14 999 999 c9_t1

/-- Scenario state after the further tick reading `L=14, R=10, F=999`. -/
def c9_t3 : Sys := loop_full defaultCal 14 10 999 c9_t2

/-! Helper lemmas about the actuator operations. -/

@[simp] theorem stopMotors_state (s : Sys) : (stopMotors s).state = s.state := rfl

@[simp] theorem stopMotors_running (s : Sys) : (stopMotors s).running = s.running := rfl

@[simp] theorem stopMotors_currentLeft (s : Sys) : (stopMotors s).currentLeftSpeed = 0 := rfl

@[simp] theorem stopMotors_currentRight (s : Sys) : (stopMotors s).currentRightSpeed = 0 := rfl

@[simp] theorem stopMotors_targetLeft (s : Sys) : (stopMotors s).targetLeftSpeed = 0 := rfl

@[simp] theorem stopMotors_targetRight (s : Sys) : (stopMotors s).targetRightSpeed = 0 := rfl

@[simp] theorem setMotorTargetsPct_state (l r : Int) (s : Sys) :
    (setMotorTargetsPct l r s).state = s.state := by
  simp only [setMotorTargetsPct, setMotorDirection]
  split <;> rfl

@[simp] theorem setMotorTargetsPct_running (l r : Int) (s : Sys) :
    (setMotorTargetsPct l r s).running = s.running := by
  simp only [setMotorTargetsPct, setMotorDirection]
  split <;> rfl

@[simp] theorem driveStraight_state (s : Sys) : (driveStraight s).state = s.state :=
  setMotorTargetsPct_state _ _ _

@[simp] theorem driveStraight_running (s : Sys) : (driveStraight s).running = s.running :=
  setMotorTargetsPct_running _ _ _

@[simp] theorem driveLeftArc_state (s : Sys) : (driveLeftArc s).state = s.state :=
  setMotorTargetsPct_state _ _ _

@[simp] theorem driveLeftArc_running (s : Sys) : (driveLeftArc s).running = s.running :=
  setMotorTargetsPct_running _ _ _

@[simp] theorem driveRightArc_state (s : Sys) : (driveRightArc s).state = s.state :=
  setMotorTargetsPct_state _ _ _

@[simp] theorem driveRightArc_running (s : Sys) : (driveRightArc s).running = s.running :=
  setMotorTargetsPct_running _ _ _

@[simp] theorem STATE_IDLE_val : STATE_IDLE = 0 := rfl

@[simp] theorem STATE_PHASE1_val : STATE_PHASE1 = 1 := rfl

@[simp] theorem STATE_PHASE2_val : STATE_PHASE2 = 2 := rfl

@[simp] theorem STATE_PHASE3_val : STATE_PHASE3 = 3 := rfl

@[simp] theorem STATE_PHASE4_val : STATE_PHASE4 = 4 := rfl

@[simp] theorem STATE_PHASE5_val : STATE_PHASE5 = 5 := rfl

@[simp] theorem STATE_PHASE6_val : STATE_PHASE6 = 6 := rfl

@[simp] theorem STATE_DONE_val : STATE_DONE = 7 := rfl

/-! Claim theorems. -/

/-- Claim C3: `stopMotors` (the sketch's hard stop) zeroes both sides'
current and target duties within the same call, from any actuator state,
and is idempotent. -/
theorem C3_hardStop_immediate (s : Sys) :
    (stopMotors s).currentLeftSpeed = 0 ∧ (stopMotors s).currentRightSpeed = 0 ∧
    (stopMotors s).targetLeftSpeed = 0 ∧ (stopMotors s).targetRightSpeed = 0 ∧
    stopMotors (stopMotors s) = stopMotors s :=
  ⟨rfl, rfl, rfl, rfl, rfl⟩

/-- Claim C6: `setMotorTargetsPct` clamps both percentages into [0,100] and
always derives each side's target from the clamped value (it is total, with
no error outcome); when both clamped values are zero it performs the hard
stop in the same call, and otherwise it enables both sides with forward
polarity. -/
theorem C6_setTargets_clamp (s : Sys) (leftPct rightPct : Int) :
    (0 ≤ constrain leftPct 0 100 ∧ constrain leftPct 0 100 ≤ 100) ∧
    (0 ≤ constrain rightPct 0 100 ∧ constrain rightPct 0 100 ≤ 100) ∧
    (setMotorTargetsPct leftPct rightPct s).targetLeftSpeed
      = cMap (constrain leftPct 0 100) 0 100 0 MAX_SPEED ∧
    (setMotorTargetsPct leftPct rightPct s).targetRightSpeed
      = cMap (constrain rightPct 0 100) 0 100 0 MAX_SPEED ∧
    setMotorTargetsPct leftPct rightPct s =
      (if constrain leftPct 0 100 = 0 ∧ constrain rightPct 0 100 = 0 then
        stopMotors s
      else
        { s with
          targetLeftSpeed := cMap (constrain leftPct 0 100) 0 100 0 MAX_SPEED
          targetRightSpeed := cMap (constrain rightPct 0 100) 0 100 0 MAX_SPEED
          leftPin1 := true, leftPin2 := false, rightPin1 := true, rightPin2 := false
          currentDirection := Direction.FORWARD }) := by
  refine ⟨?_, ?_, ?_, ?_, ?_⟩
  · unfold constrain; split <;> [omega; (split <;> omega)]
  · unfold constrain; split <;> [omega; (split <;> omega)]
  · by_cases h : constrain leftPct 0 100 = 0 ∧ constrain rightPct 0 100 = 0
    · simp only [setMotorTargetsPct]
      rw [if_pos h, h.1]
      rfl
    · simp only [setMotorTargetsPct]
      rw [if_neg h]
      rfl
  · by_cases h : constrain leftPct 0 100 = 0 ∧ constrain rightPct 0 100 = 0
    · simp only [setMotorTargetsPct]
      rw [if_pos h, h.2]
      rfl
    · simp only [setMotorTargetsPct]
      rw [if_neg h]
      rfl
  · by_cases h : constrain leftPct 0 100 = 0 ∧ constrain rightPct 0 100 = 0
    · simp only [setMotorTargetsPct]
      rw [if_pos h, if_pos h]
      rfl
    · simp only [setMotorTargetsPct]
      rw [if_neg h, if_neg h]
      rfl

/-- Claim C1: in either sequencer, a tick that runs with `running = false`
ends with the phase forced to `STATE_IDLE` and all four duty values
(current and target, both sides) equal to 0, for every prior phase and all
sensor readings. -/
theorem C1_idle_dominance (cal : Calibration) (L R F : ℚ) (s : Sys)
    (h : s.running = false) :
    ((loop_full cal L R F s).state = STATE_IDLE ∧
      (loop_full cal L R F s).currentLeftSpeed = 0 ∧
      (loop_full cal L R F s).currentRightSpeed = 0 ∧
      (loop_full cal L R F s).targetLeftSpeed = 0 ∧
      (loop_full cal L R F s).targetRightSpeed = 0) ∧
    ((loop_testLeftOnly cal L R s).state = STATE_IDLE ∧
      (loop_testLeftOnly cal L R s).currentLeftSpeed = 0 ∧
      (loop_testLeftOnly cal L R s).currentRightSpeed = 0 ∧
      (loop_testLeftOnly cal L R s).targetLeftSpeed = 0 ∧
      (loop_testLeftOnly cal L R s).targetRightSpeed = 0) := by
  unfold loop_full loop_testLeftOnly
  rw [if_pos h, if_pos h]
  exact ⟨⟨rfl, rfl, rfl, rfl, rfl⟩, ⟨rfl, rfl, rfl, rfl, rfl⟩⟩

/-- Witness for C1 at a concrete stopped state in phase 5 with sentinel
readings. -/
theorem C1_idle_dominance_witness :
    ((loop_full defaultCal 999 999 999 { setupState with state := 5 }).state = STATE_IDLE ∧
      (loop_full defaultCal 999 999 999 { setupState with state := 5 }).currentLeftSpeed = 0 ∧
      (loop_full defaultCal 999 999 999 { setupState with state := 5 }).currentRightSpeed = 0 ∧
      (loop_full defaultCal 999 999 999 { setupState with state := 5 }).targetLeftSpeed = 0 ∧
      (loop_full defaultCal 999 999 999 { setupState with state := 5 }).targetRightSpeed = 0) ∧
    ((loop_testLeftOnly defaultCal 999 999 { setupState with state := 5 }).state = STATE_IDLE ∧
      (loop_testLeftOnly defaultCal 999 999 { setupState with state := 5 }).currentLeftSpeed = 0 ∧
      (loop_testLeftOnly defaultCal 999 999 { setupState with state := 5 }).currentRightSpeed = 0 ∧
      (loop_testLeftOnly defaultCal 999 999 { setupState with state := 5 }).targetLeftSpeed = 0 ∧
      (loop_testLeftOnly defaultCal 999 999 { setupState with state := 5 }).targetRightSpeed = 0) :=
  C1_idle_dominance defaultCal 999 999 999 { setupState with state := 5 } rfl

/-- Counterexample to claim C8 as stated: in the TestLeftOnly sequencer the
`default` arm does not force `STATE_IDLE` — from the out-of-test-range state
value 5 (with `running = true`) it forces `STATE_PHASE1`. -/
theorem C8_counterexample :
    (loop_testLeftOnly defaultCal 999 999
        { setupState with state := 5, running := true }).state ≠ STATE_IDLE ∧
    (loop_testLeftOnly defaultCal 999 999
        { setupState with state := 5, running := true }).state = STATE_PHASE1 := by
  constructor <;> decide

/-- Amended claim C8: each sequencer's `switch` is total via a `default`
arm, but the catch-all targets differ: the full-mode `default` forces
`STATE_IDLE` (values outside the 0..7 enumeration), while the TestLeftOnly
`default` forces `STATE_PHASE1` (values outside its handled 0..2 cases). -/
theorem C8_default_arm (cal : Calibration) (L R F : ℚ) (s : Sys)
    (hrun : s.running = true) :
    (8 ≤ s.state → (loop_full cal L R F s).state = STATE_IDLE) ∧
    (3 ≤ s.state → (loop_testLeftOnly cal L R s).state = STATE_PHASE1) := by
  constructor
  · intro h8
    unfold loop_full
    rw [hrun, if_neg (by decide)]
    split
    all_goals try rfl
    all_goals (exfalso; omega)
  · intro h3
    unfold loop_testLeftOnly
    rw [hrun, if_neg (by decide)]
    split
    all_goals try rfl
    all_goals (exfalso; omega)

/-- Witness for the amended C8 at state value 9 (full mode) and the same
state value for the test mode. -/
theorem C8_default_arm_witness :
    (loop_full defaultCal 999 999 999
        { setupState with state := 9, running := true }).state = STATE_IDLE ∧
    (loop_testLeftOnly defaultCal 999 999
        { setupState with state := 9, running := true }).state = STATE_PHASE1 :=
  ⟨(C8_default_arm defaultCal 999 999 999
      { setupState with state := 9, running := true } rfl).1 (by decide),
   (C8_default_arm defaultCal 999 999 999
      { setupState with state := 9, running := true } rfl).2 (by decide)⟩

/-- Claim C4: with `running = true`, one full-mode tick never decreases the
phase (in the order Idle = 0 < Phase1 < ... < Phase6 < Done = 7) and never
advances it by more than one step, for every phase and all readings; the
only regression in the TestLeftOnly mode (over its phases 0..2) is the
recovery edge Phase2 → Phase1. -/
theorem C4_phase_monotonic (cal : Calibration) (L R F : ℚ) (s : Sys)
    (hrun : s.running = true) :
    (s.state ≤ 7 →
      s.state ≤ (loop_full cal L R F s).state ∧
      (loop_full cal L R F s).state ≤ s.state + 1) ∧
    (s.state ≤ 2 →
      (loop_testLeftOnly cal L R s).state < s.state →
      s.state = STATE_PHASE2 ∧ (loop_testLeftOnly cal L R s).state = STATE_PHASE1) := by
  constructor
  · intro h7
    unfold loop_full
    rw [hrun, if_neg (by decide)]
    split
    all_goals rename_i heq
    all_goals try (simp [heq])
    all_goals try (split <;> simp [heq])
    all_goals (exfalso; simp only [imp_false] at *; omega)
  · intro h2
    unfold loop_testLeftOnly
    rw [hrun, if_neg (by decide)]
    split
    all_goals rename_i heq
    all_goals try (simp [heq])
    all_goals try (split <;> (try split) <;> simp [heq])
    all_goals (exfalso; simp only [imp_false] at *; omega)

/-- Witness for C4 at phase 3 with readings that advance to phase 4, and at
test-mode phase 2 with readings that trigger the recovery edge. -/
theorem C4_phase_monotonic_witness :
    (({ setupState with state := 3, running := true } : Sys).state ≤ 7 →
      ({ setupState with state := 3, running := true } : Sys).state ≤
        (loop_full defaultCal 999 25 999 { setupState with state := 3, running := true }).state ∧
      (loop_full defaultCal 999 25 999 { setupState with state := 3, running := true }).state ≤
        ({ setupState with state := 3, running := true } : Sys).state + 1) ∧
    (({ setupState with state := 3, running := true } : Sys).state ≤ 2 →
      (loop_testLeftOnly defaultCal 999 25 { setupState with state := 3, running := true }).state <
        ({ setupState with state := 3, running := true } : Sys).state →
      ({ setupState with state := 3, running := true } : Sys).state = STATE_PHASE2 ∧
      (loop_testLeftOnly defaultCal 999 25 { setupState with state := 3, running := true }).state
        = STATE_PHASE1) :=
  C4_phase_monotonic defaultCal 999 25 999 { setupState with state := 3, running := true } rfl

/-! Ramp lemmas. -/

theorem ramp1_dist (c t : Int) :
    (t - ramp1 c t).natAbs = (t - c).natAbs - 5 := by
  simp only [ramp1, RAMP_RATE]
  split
  · omega
  · split <;> omega

theorem ramp1_le (c t : Int) : min c t ≤ ramp1 c t ∧ ramp1 c t ≤ max c t := by
  simp only [ramp1, RAMP_RATE]
  split
  · omega
  · split <;> omega

theorem ramp1_step_size (c t : Int) : (ramp1 c t - c).natAbs ≤ 5 := by
  simp only [ramp1, RAMP_RATE]
  split
  · omega
  · split <;> omega

theorem ramp_iter_dist (t : Int) (k : Nat) (c : Int) :
    (t - (fun x => ramp1 x t)^[k] c).natAbs = (t - c).natAbs - 5 * k := by
  induction k generalizing c with
  | zero => simp
  | succ n ih =>
      rw [Function.iterate_succ_apply, ih (ramp1 c t), ramp1_dist]
      omega

theorem ramp_iter_between (t : Int) (k : Nat) (c : Int) :
    min c t ≤ (fun x => ramp1 x t)^[k] c ∧ (fun x => ramp1 x t)^[k] c ≤ max c t := by
  induction k generalizing c with
  | zero => simp
  | succ n ih =>
      rw [Function.iterate_succ_apply]
      have h1 := ramp1_le c t
      have h2 := ih (ramp1 c t)
      omega

/-- Claim C2: from any per-side pair with `current ≠ target`, iterating the
ramp step exactly `ceil(|target - current| / RAMP_RATE)` times reaches the
target, not one tick earlier; every intermediate value stays between the
initial current and the target (no overshoot); each single step moves by at
most `RAMP_RATE` and never increases the distance to the target; and
`rampSpeed` applies exactly this step to each side. -/
theorem C2_ramp_convergence (c t : Int) (h : c ≠ t) :
    ((fun x => ramp1 x t)^[((t - c).natAbs + (RAMP_RATE.natAbs - 1)) / RAMP_RATE.natAbs] c = t) ∧
    (∀ k, k < ((t - c).natAbs + (RAMP_RATE.natAbs - 1)) / RAMP_RATE.natAbs →
      (fun x => ramp1 x t)^[k] c ≠ t) ∧
    (∀ k, min c t ≤ (fun x => ramp1 x t)^[k] c ∧ (fun x => ramp1 x t)^[k] c ≤ max c t) ∧
    (∀ x, (ramp1 x t - x).natAbs ≤ RAMP_RATE.natAbs ∧
      (t - ramp1 x t).natAbs ≤ (t - x).natAbs) ∧
    (∀ s : Sys,
      (rampSpeed s).currentLeftSpeed = ramp1 s.currentLeftSpeed s.targetLeftSpeed ∧
      (rampSpeed s).currentRightSpeed = ramp1 s.currentRightSpeed s.targetRightSpeed) := by
  have h5 : RAMP_RATE.natAbs = 5 := rfl
  rw [h5]
  refine ⟨?_, ?_, ?_, ?_, fun s => ⟨rfl, rfl⟩⟩
  · have hd := ramp_iter_dist t (((t - c).natAbs + (5 - 1)) / 5) c
    omega
  · intro k hk he
    have hd := ramp_iter_dist t k c
    rw [he] at hd
    simp only [sub_self, Int.natAbs_zero] at hd
    omega
  · intro k
    exact ramp_iter_between t k c
  · intro x
    have h1 := ramp1_step_size x t
    have h2 := ramp1_dist x t
    omega

/-- Witness for C2 at `current = 0`, `target = 12` (so `ceil(12/5) = 3`
ramp steps). -/
theorem C2_ramp_convergence_witness :
    (fun x => ramp1 x (12 : Int))^[3] 0 = 12 ∧
    (fun x => ramp1 x (12 : Int))^[2] 0 ≠ 12 :=
  ⟨(C2_ramp_convergence 0 12 (by decide)).1,
   (C2_ramp_convergence 0 12 (by decide)).2.1 2 (by decide)⟩

/-! Sentinel lemmas. -/

theorem loop_full_phase1_sentinel (s : Sys)
    (h1 : s.running = true) (h2 : s.state = 1) :
    loop_full defaultCal 999 999 999 s = driveStraight s := by
  unfold loop_full
  rw [h1, if_neg (by decide)]
  split
  all_goals rename_i heq
  all_goals try (exfalso; omega)
  all_goals try (exfalso; simp only [imp_false] at *; omega)
  rw [if_neg (by decide)]

/-- Claim C5: with the default calibration, `running = true` and the
full-mode sequencer in `STATE_PHASE1`, feeding the no-echo sentinel 999 on
all three channels every tick keeps the phase at `STATE_PHASE1` and the run
flag up for any number of ticks; every tick from the second state onward
carries the straight drive command (both targets mapped from
`DRIVE_MAX_PCT`, forward direction); and 999 satisfies none of the
sequencer's `inRange`/`≤` threshold tests under the default calibration. -/
theorem C5_sentinel_safety (s : Sys) (n : Nat)
    (h1 : s.running = true) (h2 : s.state = STATE_PHASE1) :
    ((loop_full defaultCal 999 999 999)^[n] s).state = STATE_PHASE1 ∧
    ((loop_full defaultCal 999 999 999)^[n] s).running = true ∧
    (((loop_full defaultCal 999 999 999)^[n + 1] s).targetLeftSpeed
        = cMap DRIVE_MAX_PCT 0 100 0 MAX_SPEED ∧
      ((loop_full defaultCal 999 999 999)^[n + 1] s).targetRightSpeed
        = cMap DRIVE_MAX_PCT 0 100 0 MAX_SPEED ∧
      ((loop_full defaultCal 999 999 999)^[n + 1] s).currentDirection = Direction.FORWARD) ∧
    (inRange 999 defaultCal.L_detect_min defaultCal.L_detect_max = false ∧
      ¬((999 : ℚ) ≤ defaultCal.R_inner_close) ∧
      inRange 999 defaultCal.R_outer_far_min defaultCal.R_outer_far_max = false ∧
      inRange 999 defaultCal.R_outer_turn_min defaultCal.R_outer_turn_max = false ∧
      ¬((999 : ℚ) ≤ defaultCal.F_final_detect) ∧
      ¬((999 : ℚ) ≤ defaultCal.F_stop_dist)) := by
  have key : ∀ (m : Nat) (x : Sys), x.running = true → x.state = 1 →
      ((loop_full defaultCal 999 999 999)^[m] x).state = 1 ∧
      ((loop_full defaultCal 999 999 999)^[m] x).running = true := by
    intro m
    induction m with
    | zero => intro x ha hb; exact ⟨hb, ha⟩
    | succ k ih =>
        intro x ha hb
        rw [Function.iterate_succ_apply, loop_full_phase1_sentinel x ha hb]
        exact ih (driveStraight x) (by simp [ha]) (by simp [hb])
  refine ⟨(key n s h1 h2).1, (key n s h1 h2).2, ?_, ?_⟩
  · rw [Function.iterate_succ_apply',
      loop_full_phase1_sentinel _ (key n s h1 h2).2 (key n s h1 h2).1]
    exact ⟨rfl, rfl, rfl⟩
  · exact ⟨by decide, by decide, by decide, by decide, by decide, by decide⟩

/-- Witness for C5 at the post-toggle state, two and three ticks deep. -/
theorem C5_sentinel_safety_witness :
    ((loop_full defaultCal 999 999 999)^[2] c9_s1).state = STATE_PHASE1 ∧
    ((loop_full defaultCal 999 999 999)^[3] c9_s1).targetLeftSpeed
      = cMap DRIVE_MAX_PCT 0 100 0 MAX_SPEED :=
  ⟨(C5_sentinel_safety c9_s1 2 rfl rfl).1,
   (C5_sentinel_safety c9_s1 2 rfl rfl).2.2.1.1⟩

/-- Claim C9: under the default calibration the scenario
`L=20,R=999,F=999` then `L=14,R=999,F=999` then `R=10` takes the running
full-mode sequencer through phases 1, 2, 3; the first tick drives straight
(both targets at full scale), the tick taken in Phase2 issues the arc-left
command, and that command's targets come from left 50 percent and right
100 percent. -/
theorem C9_scenario :
    c9_t1.state = STATE_PHASE1 ∧
    c9_t1.targetLeftSpeed = 255 ∧ c9_t1.targetRightSpeed = 255 ∧
    c9_t1.currentDirection = Direction.FORWARD ∧
    c9_t2.state = STATE_PHASE2 ∧
    c9_t2.targetLeftSpeed = 255 ∧ c9_t2.targetRightSpeed = 255 ∧
    c9_t3.state = STATE_PHASE3 ∧
    (DRIVE_MAX_PCT * TURN_SLOW_PCT).tdiv 100 = 50 ∧
    c9_t3.targetLeftSpeed = cMap 50 0 100 0 MAX_SPEED ∧
    c9_t3.targetLeftSpeed = 127 ∧
    c9_t3.targetRightSpeed = cMap DRIVE_MAX_PCT 0 100 0 MAX_SPEED ∧
    c9_t3.targetRightSpeed = 255 ∧
    c9_t3.currentDirection = Direction.FORWARD := by
  decide

/-! Reachability lemmas for the compiled MODE = 2 sketch. -/

theorem loop_testLeftOnly_state_le (cal : Calibration) (L R : ℚ) (s : Sys) :
    (loop_testLeftOnly cal L R s).state ≤ 2 := by
  unfold loop_testLeftOnly
  split
  · simp
  · split
    all_goals rename_i heq
    all_goals try simp [heq]
    all_goals try (split <;> (try split) <;> simp [heq])

theorem loopTick_state_le (cal : Calibration) (i : LoopInp) (s : Sys) :
    (loopTick cal i s).state ≤ 2 := by
  simp only [loopTick]
  rw [if_neg (show ¬MODE = 1 by decide)]
  exact loop_testLeftOnly_state_le cal _ _ _

theorem runLoop_state_le (cal : Calibration) (l : List LoopInp) (s : Sys)
    (h : s.state ≤ 2) : (runLoop cal l s).state ≤ 2 := by
  induction l generalizing s with
  | nil => exact h
  | cons i rest ih => exact ih (loopTick cal i s) (loopTick_state_le cal i s)

/-- Claim C10: with `MODE` defined to 2 the compiled `loop()` always
dispatches to the TestLeftOnly sequencer, and over every input trace from
the `setup()` state the FSM state stays within `{Idle, Phase1, Phase2}`:
`Phase3` through `Phase6` and `Done` are unreachable. -/
theorem C10_mode2_reachability (l : List LoopInp) :
    (∀ (cal : Calibration) (i : LoopInp) (s : Sys),
      loopTick cal i s =
        loop_testLeftOnly cal i.L i.R
          (updateGoSwitch i.raw i.now (if i.doRamp then rampSpeed s else s))) ∧
    (runLoop defaultCal l setupState).state ≤ STATE_PHASE2 ∧
    (runLoop defaultCal l setupState).state ≠ STATE_PHASE3 ∧
    (runLoop defaultCal l setupState).state ≠ STATE_PHASE4 ∧
    (runLoop defaultCal l setupState).state ≠ STATE_PHASE5 ∧
    (runLoop defaultCal l setupState).state ≠ STATE_PHASE6 ∧
    (runLoop defaultCal l setupState).state ≠ STATE_DONE := by
  have hle : (runLoop defaultCal l setupState).state ≤ 2 :=
    runLoop_state_le defaultCal l setupState (by decide)
  refine ⟨?_, hle, ?_, ?_, ?_, ?_, ?_⟩
  · intro cal i s
    simp only [loopTick]
    rw [if_neg (show ¬MODE = 1 by decide)]
  all_goals simp only [STATE_PHASE3_val, STATE_PHASE4_val, STATE_PHASE5_val,
    STATE_PHASE6_val, STATE_DONE_val]
  all_goals omega

/-! Debouncer lemmas. -/

theorem updateGoSwitch_chatter_step (b : Bool) (t : Nat) (s : Sys)
    (h1 : s.lastChangeTime ≤ t)
    (h2 : b = s.lastRawButton → t ≤ s.lastChangeTime + debounceMs) :
    (updateGoSwitch b t s).stableButtonState = s.stableButtonState ∧
    (updateGoSwitch b t s).running = s.running := by
  by_cases hb : b = s.lastRawButton
  · have hle := h2 hb
    simp only [updateGoSwitch]
    rw [if_neg (not_not_intro hb)]
    rw [if_neg (by intro hc; exact absurd hc.1 (by omega))]
    exact ⟨rfl, rfl⟩
  · simp only [updateGoSwitch]
    rw [if_pos hb]
    rw [if_neg (by intro hc; have := hc.1; simp at this)]
    exact ⟨rfl, rfl⟩

theorem updateGoSwitch_noop (b : Bool) (t : Nat) (s : Sys)
    (h1 : b = s.lastRawButton) (h2 : b = s.stableButtonState) :
    updateGoSwitch b t s = s := by
  simp only [updateGoSwitch]
  rw [if_neg (not_not_intro h1)]
  rw [if_neg (by intro hc; exact hc.2 h2)]

theorem updateGoSwitch_commit (b : Bool) (t : Nat) (s : Sys)
    (hb : b = s.lastRawButton) (hs : b ≠ s.stableButtonState)
    (ht : t - s.lastChangeTime > debounceMs) :
    (updateGoSwitch b t s).stableButtonState = b ∧
    (updateGoSwitch b t s).lastRawButton = b ∧
    (updateGoSwitch b t s).running = (if b = false then !s.running else s.running) := by
  simp only [updateGoSwitch]
  rw [if_neg (not_not_intro hb)]
  rw [if_pos ⟨ht, hs⟩]
  by_cases hbf : b = false
  · rw [if_pos hbf]
    by_cases hr : s.running
    · rw [if_neg (by simp [hr])]
      exact ⟨rfl, hb.symm, by simp [hbf, hr]⟩
    · rw [if_pos (by simp at hr; simp [hr])]
      exact ⟨rfl, hb.symm, by simp at hr; simp [hbf, hr]⟩
  · rw [if_neg hbf]
    exact ⟨rfl, hb.symm, by simp [hbf]⟩

theorem processSwitch_chatter (l : List (Bool × Nat)) (s : Sys)
    (h : chatterOk s l) :
    (processSwitch l s).stableButtonState = s.stableButtonState ∧
    (processSwitch l s).running = s.running := by
  induction l generalizing s with
  | nil => exact ⟨rfl, rfl⟩
  | cons p rest ih =>
      obtain ⟨h1, h2, h3⟩ := h
      have hstep := updateGoSwitch_chatter_step p.1 p.2 s h1 h2
      have hrest := ih (updateGoSwitch p.1 p.2 s) h3
      exact ⟨hrest.1.trans hstep.1, hrest.2.trans hstep.2⟩

theorem processSwitch_noop (b : Bool) (l : List (Bool × Nat)) (s : Sys)
    (hall : ∀ p ∈ l, p.1 = b)
    (h1 : b = s.lastRawButton) (h2 : b = s.stableButtonState) :
    processSwitch l s = s := by
  induction l with
  | nil => rfl
  | cons p rest ih =>
      have hp : p.1 = b := hall p (List.mem_cons_self _ _)
      have hstep : updateGoSwitch p.1 p.2 s = s :=
        updateGoSwitch_noop p.1 p.2 s (hp.trans h1) (hp.trans h2)
      show processSwitch rest (updateGoSwitch p.1 p.2 s) = s
      rw [hstep]
      exact ih (fun q hq => hall q (List.mem_cons_of_mem _ hq))

/-- Claim C7: over any sample trace that chatters (every sample either
flips the raw level again or stays inside the debounce window of the last
change, with non-decreasing times) the debouncer commits no stable level
and never toggles `running`; whereas a raw level that differs from the
stable level and whose last change is more than `debounceMs` old commits
exactly once — the commit sets the stable level, toggles `running` exactly
when the level is LOW, and holding the same level afterwards changes
nothing at all. -/
theorem C7_debounce_stability (s : Sys) (l : List (Bool × Nat))
    (b : Bool) (t : Nat) (l2 : List (Bool × Nat)) :
    (chatterOk s l →
      (processSwitch l s).stableButtonState = s.stableButtonState ∧
      (processSwitch l s).running = s.running) ∧
    (b = s.lastRawButton → b ≠ s.stableButtonState →
      t - s.lastChangeTime > debounceMs → (∀ p ∈ l2, p.1 = b) →
      (updateGoSwitch b t s).stableButtonState = b ∧
      (updateGoSwitch b t s).running = (if b = false then !s.running else s.running) ∧
      processSwitch l2 (updateGoSwitch b t s) = updateGoSwitch b t s) := by
  constructor
  · intro h
    exact processSwitch_chatter l s h
  · intro hb hs ht hall
    have hc := updateGoSwitch_commit b t s hb hs ht
    exact ⟨hc.1, hc.2.2, processSwitch_noop b l2 _ hall hc.2.1.symm hc.1.symm⟩

/-- Witness for C7: a three-sample chatter trace from the `setup()` state
commits nothing, and a LOW level recorded 100 ms ago commits once and then
stays silent over two further held samples. -/
theorem C7_debounce_stability_witness :
    ((processSwitch [(false, 10), (true, 30), (false, 45)] setupState).stableButtonState
        = setupState.stableButtonState ∧
      (processSwitch [(false, 10), (true, 30), (false, 45)] setupState).running
        = setupState.running) ∧
    ((updateGoSwitch false 100 { setupState with lastRawButton := false }).stableButtonState
        = false ∧
      (updateGoSwitch false 100 { setupState with lastRawButton := false }).running = true ∧
      processSwitch [(false, 120), (false, 200)]
          (updateGoSwitch false 100 { setupState with lastRawButton := false })
        = updateGoSwitch false 100 { setupState with lastRawButton := false }) :=
  ⟨(C7_debounce_stability setupState [(false, 10), (true, 30), (false, 45)]
      false 100 []).1 (by decide),
   (C7_debounce_stability { setupState with lastRawButton := false } []
      false 100 [(false, 120), (false, 200)]).2 rfl (by decide) (by decide) (by decide)⟩
